import Mathlib

/-!
# Verification of the Conector session manager (`ClientManager`)

Shallow embedding of the multi-tenant WhatsApp session manager from
`src/backend/src/routes/session.ts` (class `ClientManager`) together with the
webhook-config route handler and the `add_webhook_trigger.sql` migration.

Modelling conventions:
* The JS `Map` objects `clients` and `lastQr` are association lists with
  JS-`Map` semantics (`mget`/`mset`/`mdelete`), where `mset` replaces the
  value when the key is present and appends otherwise.
* A constructed `Client` handle is identified by the fresh counter
  `nextClientId`, so distinct constructions yield distinct handles.
* Socket emissions (`this.io.to(userId).emit(event, data)`) are logged as an
  ordered list of `(room, event)` pairs in the state.
* External effects that can fail (`client.initialize`, `client.logout`,
  `client.destroy`, `fs.remove`, the Supabase lookup, `axios.post`,
  `fs.readdir`) are driven by Boolean / `Except` oracles; each `try/catch`
  of the source is an explicit `match` on the oracle's outcome whose error
  branch is discarded, exactly as the source's `catch` blocks log and swallow.
* JavaScript runs callbacks to completion: `startClient` has no `await`
  between the `clients.has` check and `clients.set` (lines 150–208), so that
  whole section is a single atomic step of the event-loop model; the only
  suspension point, `await client.initialize()`, occurs after registration
  and never touches the registry, so folding it into the same step preserves
  every registry-trace fact.
-/

/-- JS falsiness of a nullable string: `!x` is true for `null`/`undefined`
and for the empty string. -/
def jsFalsyStr : Option String → Bool
  | none => true
  | some s => s == ""

/-- JS `x || d` for a nullable string `x`: yields `d` when `x` is
null/undefined or empty, else `x`. -/
def jsOr (x : Option String) (d : String) : String :=
  match x with
  | none => d
  | some s => if s == "" then d else s

/-- JS `String.prototype.includes`: true when `pat` occurs in `s`
(used with the non-empty pattern `"@g.us"`). -/
def strIncludes (s pat : String) : Bool :=
  (s.splitOn pat).length != 1

/-- `Map.prototype.get`. -/
def mget {α : Type} (m : List (String × α)) (k : String) : Option α :=
  (m.find? (fun p => p.1 == k)).map Prod.snd

/-- `Map.prototype.has`. -/
def mhas {α : Type} (m : List (String × α)) (k : String) : Bool :=
  (mget m k).isSome

/-- `Map.prototype.set`: replace the entry if the key is present, append
otherwise. -/
def mset {α : Type} (m : List (String × α)) (k : String) (v : α) :
    List (String × α) :=
  if (m.find? (fun p => p.1 == k)).isSome then
    m.map (fun p => if p.1 == k then (k, v) else p)
  else
    m ++ [(k, v)]

/-- `Map.prototype.delete`. -/
def mdelete {α : Type} (m : List (String × α)) (k : String) :
    List (String × α) :=
  m.filter (fun p => !(p.1 == k))

/-- Number of entries a map holds under key `k` (for stating the
one-handle-per-tenant invariant). -/
def countKey {α : Type} (m : List (String × α)) (k : String) : Nat :=
  (m.filter (fun p => p.1 == k)).length

/-- A `whatsapp-web.js` `Client` handle as constructed by `startClient`:
`id` is the allocation identity (fresh per construction), `clientId` and
`dataPath` are the `LocalAuth` options from lines 161–163. -/
structure Client where
  id : Nat
  clientId : String
  dataPath : String
deriving DecidableEq, Repr

/-- One socket emission `io.to(room).emit(event, payload)`; the catalogue of
events emitted by `ClientManager` (status / qr / ready / error /
disconnected). -/
inductive EventMsg where
  | status (s : String)
  | qr (data : String)
  | ready
  | error (message : String)
  | disconnected (reason : String)
deriving DecidableEq, Repr

/-- Row of `user_configs` as selected by `dispatchWebhook`
(`webhook_url, webhook_trigger`), both nullable. -/
structure UserConfig where
  webhook_url : Option String
  webhook_trigger : Option String
deriving DecidableEq, Repr

/-- Result value of the Supabase `.single()` call: `data` and `error`,
mirroring `const { data, error } = await supabase…`. -/
structure LookupResult where
  data : Option UserConfig
  error : Option String
deriving DecidableEq, Repr

/-- A `whatsapp-web.js` message event, restricted to the fields
`dispatchWebhook` reads. -/
structure Message where
  fromMe : Bool
  mfrom : String
  mto : String
  body : String
  mtype : String
  timestamp : Nat
  notifyName : Option String
  hasMedia : Bool
  idSerialized : String
deriving DecidableEq, Repr

/-- The webhook POST payload built at lines 263–274. -/
structure WebhookPayload where
  pfrom : String
  pto : String
  body : String
  ptype : String
  timestamp : Nat
  notifyName : String
  hasMedia : Bool
  isGroup : Bool
  id : String
  fromMe : Bool
deriving DecidableEq, Repr

/-- Outcome of one `dispatchWebhook` call: nothing sent (early `return`),
payload sent, or an error caught by the surrounding `try/catch` and logged. -/
inductive DispatchOutcome where
  | skipped
  | sent (url : String) (payload : WebhookPayload)
  | errorLogged (e : String)
deriving DecidableEq, Repr

/-- Failure oracle for `deleteSession`: whether `client.logout()`,
`client.destroy()` and `fs.remove` reject, and what `fs.pathExists`
returns. -/
structure TeardownOracle where
  logoutFails : Bool
  destroyFails : Bool
  pathExists : Bool
  removeFails : Bool
deriving DecidableEq, Repr

/-- The `ClientManager` state: the two `Map`s, the fresh-handle counter, the
auth directory, the ordered log of socket emissions and the ordered log of
webhook dispatch outcomes. -/
structure ManagerState where
  clients : List (String × Client)
  lastQr : List (String × String)
  nextClientId : Nat
  authDir : String
  events : List (String × EventMsg)
  webhookLog : List (String × DispatchOutcome)
deriving DecidableEq, Repr

/-- Fresh manager as built by the constructor: empty maps, no events. -/
def initialState (authDir : String) : ManagerState :=
  { clients := [], lastQr := [], nextClientId := 0, authDir := authDir,
    events := [], webhookLog := [] }

/-- `emitToUser`: `this.io.to(userId).emit(event, data)`, logged in order. -/
def emitToUser (s : ManagerState) (userId : String) (e : EventMsg) :
    ManagerState :=
  { s with events := s.events ++ [(userId, e)] }

/-- `getClient(userId)`. -/
def getClient (s : ManagerState) (userId : String) : Option Client :=
  mget s.clients userId

/-- `getQr(userId)`. -/
def getQr (s : ManagerState) (userId : String) : Option String :=
  mget s.lastQr userId

/-- Outcome of an external step that may reject, driven by an oracle. -/
def attemptStep (fails : Bool) : Except String Unit :=
  if fails then Except.error "error" else Except.ok ()

/-- `startClient(userId)` (lines 148–218). If a client exists, emit status
`CONNECTED` and return it; otherwise emit `INITIALIZING`, construct a fresh
handle, register it, then run `client.initialize()` inside `try/catch`
(oracle `initFails`), emitting the `Failed to initialize` error event on
rejection. Always returns the handle; never throws. -/
def startClient (s : ManagerState) (userId : String) (initFails : Bool) :
    ManagerState × Client :=
  match mget s.clients userId with
  | some existing =>
      (emitToUser s userId (EventMsg.status "CONNECTED"), existing)
  | none =>
      let s1 := emitToUser s userId (EventMsg.status "INITIALIZING")
      let c : Client :=
        { id := s1.nextClientId, clientId := userId, dataPath := s1.authDir }
      let s2 : ManagerState :=
        { s1 with clients := mset s1.clients userId c,
                  nextClientId := s1.nextClientId + 1 }
      match attemptStep initFails with
      | Except.ok _ => (s2, c)
      | Except.error _ =>
          (emitToUser s2 userId (EventMsg.error "Failed to initialize"), c)

/-- The `qr` handler (lines 180–184): cache the QR for polling and emit it. -/
def onQr (s : ManagerState) (userId qrData : String) : ManagerState :=
  emitToUser
    { s with lastQr := mset s.lastQr userId qrData }
    userId (EventMsg.qr qrData)

/-- The `ready` handler (lines 186–191): clear the cached QR, emit `ready`
then status `CONNECTED`. -/
def onReady (s : ManagerState) (userId : String) : ManagerState :=
  emitToUser
    (emitToUser { s with lastQr := mdelete s.lastQr userId }
      userId EventMsg.ready)
    userId (EventMsg.status "CONNECTED")

/-- The `auth_failure` handler (lines 193–196): emit an error event only. -/
def onAuthFailure (s : ManagerState) (userId : String) : ManagerState :=
  emitToUser s userId (EventMsg.error "Auth failure")

/-- The `disconnected` handler (lines 202–206): emit the reason, then remove
the handle from the registry. -/
def onDisconnected (s : ManagerState) (userId reason : String) :
    ManagerState :=
  { emitToUser s userId (EventMsg.disconnected reason) with
      clients := mdelete s.clients userId }

/-- `deleteSession(userId)` (lines 220–243). With a live handle: `logout()`
then `destroy()`, each in its own `try/catch` (catch logs and discards),
then remove from the registry; afterwards, if the session directory exists,
`fs.remove` in a `try/catch`; finally emit `disconnected { reason: 'logout' }`.
The filesystem effects leave the in-memory state unchanged, and every
failure branch of the oracle is caught, so the result is always `ok`. -/
def deleteSession (s : ManagerState) (userId : String) (o : TeardownOracle) :
    Except String ManagerState :=
  let s1 : ManagerState :=
    match mget s.clients userId with
    | some _ =>
        let _logoutOutcome := attemptStep o.logoutFails
        let _destroyOutcome := attemptStep o.destroyFails
        { s with clients := mdelete s.clients userId }
    | none => s
  let _removeOutcome :=
    if o.pathExists then some (attemptStep o.removeFails) else none
  Except.ok (emitToUser s1 userId (EventMsg.disconnected "logout"))

/-- The payload of lines 263–274: origin, destination, body, type, timestamp,
display name (`_data?.notifyName || ''`), media flag, group flag
(`from.includes('@g.us')`), serialized id and direction flag. -/
def mkPayload (m : Message) : WebhookPayload :=
  { pfrom := m.mfrom, pto := m.mto, body := m.body, ptype := m.mtype,
    timestamp := m.timestamp, notifyName := jsOr m.notifyName "",
    hasMedia := m.hasMedia, isGroup := strIncludes m.mfrom "@g.us",
    id := m.idSerialized, fromMe := m.fromMe }

/-- The pure decision kernel of `dispatchWebhook` (lines 247–274): the early
`return`s (lookup error, no row, falsy URL, trigger filter) yield `none`;
otherwise the URL and payload that will be POSTed. -/
def webhookDecision (r : LookupResult) (m : Message) :
    Option (String × WebhookPayload) :=
  match r.error with
  | some _ => none
  | none =>
    match r.data with
    | none => none
    | some data =>
        if jsFalsyStr data.webhook_url then none
        else
          let trigger := jsOr data.webhook_trigger "incoming"
          let isOutgoing := m.fromMe
          if trigger == "incoming" && isOutgoing then none
          else if trigger == "outgoing" && !isOutgoing then none
          else some (data.webhook_url.getD "", mkPayload m)

/-- `dispatchWebhook(userId, message)` (lines 245–282). `lk` is the outcome
of the awaited Supabase lookup (`Except.error` = the await rejected);
`postFails` whether `axios.post` rejects. The whole body sits in one
`try/catch` whose catch only logs, so every failure is swallowed into
`errorLogged` and the function is total: no exception reaches the
message-event path, and no manager state is touched. -/
def dispatchWebhook (lk : Except String LookupResult) (postFails : Bool)
    (m : Message) : DispatchOutcome :=
  match lk with
  | Except.error e => DispatchOutcome.errorLogged e
  | Except.ok r =>
      match webhookDecision r m with
      | none => DispatchOutcome.skipped
      | some (url, payload) =>
          match attemptStep postFails with
          | Except.ok _ => DispatchOutcome.sent url payload
          | Except.error e => DispatchOutcome.errorLogged e

/-- The `message` handler (lines 198–200): run `dispatchWebhook` and record
its outcome; nothing else in the manager state changes. -/
def onMessage (s : ManagerState) (userId : String)
    (lk : Except String LookupResult) (postFails : Bool) (m : Message) :
    ManagerState :=
  { s with webhookLog := s.webhookLog ++ [(userId, dispatchWebhook lk postFails m)] }

/-- JS `String.prototype.startsWith` (computed on the character list, which
coincides with the code-unit check for the ASCII prefix used here). -/
def strStartsWith (s pre : String) : Bool :=
  pre.data.isPrefixOf s.data

/-- `item.replace('session-', '')` under the guard
`item.startsWith('session-')` (line 122–123): JS `replace` rewrites the
leftmost occurrence, which under the guard is the prefix at position 0. -/
def extractUserId (item : String) : String :=
  String.mk (item.data.drop ("session-".data.length))

/-- One iteration of the `init` sweep (lines 121–129): directories matching
the `session-` prefix are restored through the ordinary `startClient` path
(`startClient` is not awaited, so a per-tenant failure never stops the
loop); other entries are skipped. -/
def restoreItem (s : ManagerState) (item : String)
    (initFailsOf : String → Bool) : ManagerState :=
  if strStartsWith item "session-" then
    (startClient s (extractUserId item) (initFailsOf (extractUserId item))).1
  else s

/-- `init()` (lines 115–133): read the auth directory (`readdirResult` is the
outcome of `fs.readdir`; its rejection is caught by the surrounding
`try/catch` and only logged) and restore every matching entry in order. -/
def initSweep (s : ManagerState) (readdirResult : Except String (List String))
    (initFailsOf : String → Bool) : ManagerState :=
  match readdirResult with
  | Except.error _ => s
  | Except.ok items => items.foldl (fun st item => restoreItem st item initFailsOf) s

/-- The `webhook_trigger` written by `POST /config/webhook` (line 66):
`webhook_trigger || 'incoming'`. -/
def savedWebhookTrigger (bodyTrigger : Option String) : String :=
  jsOr bodyTrigger "incoming"

/-- The column default from `migrations/add_webhook_trigger.sql`:
`webhook_trigger TEXT DEFAULT 'incoming'`. -/
def webhookTriggerColumnDefault : String := "incoming"

/-- Atomic steps of the event-loop interleaving model: the synchronous
sections of `startClient` / the event handlers / `deleteSession` each run to
completion before another callback starts (single-threaded JS event loop),
so each is one step; steps for different calls interleave arbitrarily. -/
inductive Op where
  | start (userId : String) (initFails : Bool)
  | qrEvent (userId qrData : String)
  | readyEvent (userId : String)
  | authFailureEvent (userId : String)
  | disconnectedEvent (userId reason : String)
  | deleteOp (userId : String) (o : TeardownOracle)
  | messageEvent (userId : String) (lk : Except String LookupResult)
      (postFails : Bool) (m : Message)

/-- Semantics of one step. -/
def applyOp (s : ManagerState) : Op → ManagerState
  | Op.start userId initFails => (startClient s userId initFails).1
  | Op.qrEvent userId qrData => onQr s userId qrData
  | Op.readyEvent userId => onReady s userId
  | Op.authFailureEvent userId => onAuthFailure s userId
  | Op.disconnectedEvent userId reason => onDisconnected s userId reason
  | Op.deleteOp userId o =>
      match deleteSession s userId o with
      | Except.ok s' => s'
      | Except.error _ => s
  | Op.messageEvent userId lk postFails m => onMessage s userId lk postFails m

/-- Run an arbitrary interleaving of steps. -/
def run (ops : List Op) (s : ManagerState) : ManagerState :=
  ops.foldl applyOp s

/-! ## Map lemmas -/

theorem countKey_append {α : Type} (m m' : List (String × α)) (k : String) :
    countKey (m ++ m') k = countKey m k + countKey m' k := by
  simp [countKey, List.filter_append]

theorem countKey_eq_zero_of_mget_none {α : Type} {m : List (String × α)}
    {k : String} (h : mget m k = none) : countKey m k = 0 := by
  simp only [mget, Option.map_eq_none'] at h
  rw [List.find?_eq_none] at h
  simp only [countKey, List.length_eq_zero, List.filter_eq_nil_iff]
  exact h

theorem countKey_map_fst_preserving {α β : Type}
    (f : (String × α) → (String × β)) (hf : ∀ p, (f p).1 = p.1)
    (m : List (String × α)) (k : String) :
    countKey (m.map f) k = countKey m k := by
  induction m with
  | nil => rfl
  | cons p t ih =>
    by_cases hp : p.1 == k
    · simp [countKey, List.filter_cons, hf, hp] at ih ⊢
      exact ih
    · simp [countKey, List.filter_cons, hf, hp] at ih ⊢
      exact ih

theorem mset_of_mget_none {α : Type} {m : List (String × α)} {k : String}
    (v : α) (h : mget m k = none) : mset m k v = m ++ [(k, v)] := by
  simp only [mget, Option.map_eq_none'] at h
  simp [mset, h]

theorem countKey_mset_le {α : Type} {m : List (String × α)} (k : String)
    (v : α) (k' : String) (h : countKey m k' ≤ 1) :
    countKey (mset m k v) k' ≤ 1 := by
  unfold mset
  split
  · rw [countKey_map_fst_preserving]
    · exact h
    · intro p
      by_cases hp : p.1 == k
      · simp [hp]
        exact (eq_of_beq hp).symm
      · simp [hp]
  · next hn =>
    have hnone : m.find? (fun p => p.1 == k) = none := by
      cases hfind : m.find? (fun p => p.1 == k) with
      | none => rfl
      | some p => exact absurd (by simp [hfind]) hn
    have hz : countKey m k = 0 :=
      countKey_eq_zero_of_mget_none (by simp [mget, hnone])
    rw [countKey_append]
    by_cases hk : k' = k
    · subst hk
      have h1 : countKey [(k', v)] k' = 1 := by simp [countKey]
      omega
    · have h0 : countKey [(k, v)] k' = 0 := by
        simp [countKey, Ne.symm hk]
      omega

theorem countKey_mdelete_le {α : Type} (m : List (String × α))
    (k k' : String) : countKey (mdelete m k) k' ≤ countKey m k' := by
  simp only [countKey, ← List.countP_eq_length_filter]
  exact List.Sublist.countP_le _ (List.filter_sublist m)

theorem comp_replace_pred {α : Type} (k k' : String) (v : α) :
    ((fun p : String × α => p.1 == k') ∘ fun p => if p.1 = k then (k, v) else p)
      = fun p : String × α => p.1 == k' := by
  funext p
  by_cases h : p.1 = k
  · subst h; simp
  · simp [h]

theorem mget_mset_self {α : Type} (m : List (String × α)) (k : String)
    (v : α) : mget (mset m k v) k = some v := by
  unfold mset
  split
  · next h =>
    obtain ⟨p, hp⟩ := Option.isSome_iff_exists.mp h
    have hpk : p.1 = k := by
      have h2 := List.find?_some hp
      exact eq_of_beq h2
    unfold mget
    have hif : (fun p : String × α => if p.1 == k then (k, v) else p)
        = fun p => if p.1 = k then (k, v) else p := by
      funext q; by_cases hq : q.1 = k <;> simp [hq]
    rw [hif, List.find?_map, comp_replace_pred, hp]
    simp [hpk]
  · next h =>
    have hnone : m.find? (fun p => p.1 == k) = none :=
      Option.not_isSome_iff_eq_none.mp h
    unfold mget
    rw [List.find?_append, hnone]
    simp

theorem mget_mset_ne {α : Type} (m : List (String × α)) {k k' : String}
    (v : α) (hk : k' ≠ k) : mget (mset m k v) k' = mget m k' := by
  unfold mset
  split
  · unfold mget
    have hif : (fun p : String × α => if p.1 == k then (k, v) else p)
        = fun p => if p.1 = k then (k, v) else p := by
      funext q; by_cases hq : q.1 = k <;> simp [hq]
    rw [hif, List.find?_map, comp_replace_pred]
    cases hf : m.find? (fun p => p.1 == k') with
    | none => simp
    | some p =>
      have hpk : p.1 = k' := by
        have h2 := List.find?_some hf
        exact eq_of_beq h2
      simp [hpk, if_neg hk]
  · unfold mget
    rw [List.find?_append]
    cases hf : m.find? (fun p => p.1 == k') with
    | none => simp [hf, Ne.symm hk]
    | some p => simp [hf]

theorem mget_mdelete_self {α : Type} (m : List (String × α)) (k : String) :
    mget (mdelete m k) k = none := by
  simp only [mget, Option.map_eq_none', List.find?_eq_none, mdelete]
  intro x hx
  rcases List.mem_filter.mp hx with ⟨_, hx2⟩
  simpa using hx2

/-! ## Characterizations of the manager operations -/

theorem startClient_of_mget_some (s : ManagerState) (u : String) (b : Bool)
    (c : Client) (h : mget s.clients u = some c) :
    startClient s u b =
      ({ s with events := s.events ++ [(u, EventMsg.status "CONNECTED")] },
       c) := by
  simp only [startClient, h, emitToUser]

theorem startClient_of_mget_none (s : ManagerState) (u : String) (b : Bool)
    (h : mget s.clients u = none) :
    (startClient s u b).1.clients =
      mset s.clients u
        { id := s.nextClientId, clientId := u, dataPath := s.authDir } ∧
    (startClient s u b).1.nextClientId = s.nextClientId + 1 ∧
    (startClient s u b).2 =
      { id := s.nextClientId, clientId := u, dataPath := s.authDir } ∧
    (startClient s u b).1.lastQr = s.lastQr := by
  simp only [startClient, h, emitToUser, attemptStep]
  cases b <;> simp

theorem startClient_events_fail (s : ManagerState) (u : String)
    (h : mget s.clients u = none) :
    (startClient s u true).1.events =
      s.events ++ [(u, EventMsg.status "INITIALIZING"),
                   (u, EventMsg.error "Failed to initialize")] := by
  simp only [startClient, h, emitToUser, attemptStep]
  simp

theorem mhas_startClient_self (s : ManagerState) (u : String) (b : Bool) :
    mhas (startClient s u b).1.clients u = true := by
  cases h : mget s.clients u with
  | some c =>
      rw [startClient_of_mget_some s u b c h]
      simp [mhas, h]
  | none =>
      have h1 := (startClient_of_mget_none s u b h).1
      simp [mhas, h1, mget_mset_self]

theorem mhas_startClient_mono (s : ManagerState) (u : String) (b : Bool)
    (k : String) (h : mhas s.clients k = true) :
    mhas (startClient s u b).1.clients k = true := by
  cases hc : mget s.clients u with
  | some c =>
      rw [startClient_of_mget_some s u b c hc]
      exact h
  | none =>
      have h1 := (startClient_of_mget_none s u b hc).1
      by_cases hk : k = u
      · subst hk
        simp [mhas, h1, mget_mset_self]
      · simp only [mhas, h1, mget_mset_ne _ _ hk]
        exact h

theorem mget_mdelete_ne {α : Type} (m : List (String × α)) {k k' : String}
    (hk : k' ≠ k) : mget (mdelete m k) k' = mget m k' := by
  unfold mdelete mget
  induction m with
  | nil => rfl
  | cons p t ih =>
    by_cases hp : p.1 = k
    · rw [List.filter_cons_of_neg (by simp [hp]),
          List.find?_cons_of_neg _ (by simp [hp, Ne.symm hk])]
      exact ih
    · by_cases hq : p.1 = k'
      · rw [List.filter_cons_of_pos (by simp [hp]),
            List.find?_cons_of_pos _ (by simp [hq]),
            List.find?_cons_of_pos _ (by simp [hq])]
      · rw [List.filter_cons_of_pos (by simp [hp]),
            List.find?_cons_of_neg _ (by simp [hq]),
            List.find?_cons_of_neg _ (by simp [hq])]
        exact ih

/-! ## The registry invariant over arbitrary interleavings -/

/-- At most one registry entry per tenant. -/
def RegistryBound (s : ManagerState) : Prop :=
  ∀ k, countKey s.clients k ≤ 1

theorem startClient_clients_cases (s : ManagerState) (u : String) (b : Bool) :
    (startClient s u b).1.clients = s.clients ∨
    (mget s.clients u = none ∧
      (startClient s u b).1.clients = mset s.clients u
        { id := s.nextClientId, clientId := u, dataPath := s.authDir }) := by
  cases h : mget s.clients u with
  | some c =>
      left
      rw [startClient_of_mget_some s u b c h]
  | none =>
      right
      exact ⟨rfl, (startClient_of_mget_none s u b h).1⟩

theorem deleteSession_spec (s : ManagerState) (u : String)
    (o : TeardownOracle) :
    ∃ s', deleteSession s u o = Except.ok s' ∧
      mget s'.clients u = none ∧
      (∀ k, countKey s'.clients k ≤ countKey s.clients k) ∧
      s'.lastQr = s.lastQr ∧
      s'.nextClientId = s.nextClientId ∧
      s'.events = s.events ++ [(u, EventMsg.disconnected "logout")] ∧
      s'.webhookLog = s.webhookLog := by
  unfold deleteSession
  cases hm : mget s.clients u with
  | some c =>
      refine ⟨_, rfl, ?_, ?_, rfl, rfl, rfl, rfl⟩
      · exact mget_mdelete_self s.clients u
      · intro k
        exact countKey_mdelete_le s.clients u k
  | none =>
      exact ⟨_, rfl, hm, fun k => le_refl _, rfl, rfl, rfl, rfl⟩

theorem registryBound_applyOp {s : ManagerState} (op : Op)
    (h : RegistryBound s) : RegistryBound (applyOp s op) := by
  cases op with
  | start u b =>
      intro k
      show countKey (startClient s u b).1.clients k ≤ 1
      rcases startClient_clients_cases s u b with hc | ⟨_, hc⟩
      · rw [hc]; exact h k
      · rw [hc]; exact countKey_mset_le u _ k (h k)
  | qrEvent u q => exact h
  | readyEvent u => exact h
  | authFailureEvent u => exact h
  | disconnectedEvent u r =>
      intro k
      show countKey (onDisconnected s u r).clients k ≤ 1
      simp only [onDisconnected, emitToUser]
      exact le_trans (countKey_mdelete_le s.clients u k) (h k)
  | deleteOp u o =>
      intro k
      obtain ⟨s', heq, _, hle, _⟩ := deleteSession_spec s u o
      show countKey (match deleteSession s u o with
        | Except.ok s' => s'
        | Except.error _ => s).clients k ≤ 1
      rw [heq]
      exact le_trans (hle k) (h k)
  | messageEvent u lk pf m => exact h

theorem registryBound_run (ops : List Op) (s : ManagerState)
    (h : RegistryBound s) : RegistryBound (run ops s) := by
  induction ops generalizing s with
  | nil => exact h
  | cons op rest ih =>
      show RegistryBound (run rest (applyOp s op))
      exact ih _ (registryBound_applyOp op h)

theorem registryBound_initial (authDir : String) :
    RegistryBound (initialState authDir) := by
  intro k
  simp [initialState, countKey]

/-! ## Claim theorems -/

/-- C1: for every tenant T the registry holds at most one handle keyed by T
at every instant along any interleaving of manager steps (each step being a
synchronous event-loop section: `startClient` has no suspension point
between the `has` check and `set`, so check–construct–register is one
step), and `startClient` on a tenant that already has a handle constructs
and stores nothing: registry and handle counter are unchanged and the
existing handle is returned. -/
theorem C1_at_most_one_handle_per_tenant :
    (∀ (ops : List Op) (authDir T : String),
        countKey (run ops (initialState authDir)).clients T ≤ 1) ∧
    (∀ (s : ManagerState) (T : String) (b : Bool) (c : Client),
        mget s.clients T = some c →
        (startClient s T b).1.clients = s.clients ∧
        (startClient s T b).1.nextClientId = s.nextClientId ∧
        (startClient s T b).2 = c) := by
  constructor
  · intro ops authDir T
    exact registryBound_run ops _ (registryBound_initial authDir) T
  · intro s T b c h
    rw [startClient_of_mget_some s T b c h]
    exact ⟨rfl, rfl, rfl⟩

theorem C1_at_most_one_handle_per_tenant_witness :
    countKey (run [Op.start "t1" false, Op.start "t1" false]
        (initialState "/auth")).clients "t1" ≤ 1 ∧
    (startClient
        { clients := [("t1", { id := 0, clientId := "t1", dataPath := "/auth" })],
          lastQr := [], nextClientId := 1, authDir := "/auth", events := [],
          webhookLog := [] } "t1" false).1.clients =
      [("t1", { id := 0, clientId := "t1", dataPath := "/auth" })] := by
  constructor
  · exact C1_at_most_one_handle_per_tenant.1
      [Op.start "t1" false, Op.start "t1" false] "/auth" "t1"
  · exact (C1_at_most_one_handle_per_tenant.2
      { clients := [("t1", { id := 0, clientId := "t1", dataPath := "/auth" })],
        lastQr := [], nextClientId := 1, authDir := "/auth", events := [],
        webhookLog := [] } "t1" false
      { id := 0, clientId := "t1", dataPath := "/auth" } rfl).1

/-- C2: if a handle for T is already registered then `startClient(T)`,
whatever the oracle for `initialize` would do, only emits a `CONNECTED`
status event to T's room and returns the existing handle; the registry, the
QR cache and the handle counter are untouched (the returned pair is the old
state with exactly one appended event). -/
theorem C2_startClient_idempotent (s : ManagerState) (T : String) (b : Bool)
    (c : Client) (h : mget s.clients T = some c) :
    startClient s T b =
      ({ s with events := s.events ++ [(T, EventMsg.status "CONNECTED")] },
       c) :=
  startClient_of_mget_some s T b c h

theorem C2_startClient_idempotent_witness :
    startClient
      { clients := [("t1", { id := 3, clientId := "t1", dataPath := "/a" })],
        lastQr := [("t1", "Q")], nextClientId := 5, authDir := "/a",
        events := [("t1", EventMsg.ready)], webhookLog := [] } "t1" true =
    ({ clients := [("t1", { id := 3, clientId := "t1", dataPath := "/a" })],
       lastQr := [("t1", "Q")], nextClientId := 5, authDir := "/a",
       events := [("t1", EventMsg.ready), ("t1", EventMsg.status "CONNECTED")],
       webhookLog := [] },
     { id := 3, clientId := "t1", dataPath := "/a" }) :=
  C2_startClient_idempotent _ "t1" true
    { id := 3, clientId := "t1", dataPath := "/a" } rfl

/-- C3: the `disconnected` handler emits a `disconnected` event carrying the
reason to T's room and removes T from the registry, so `getClient(T)` is
absent immediately afterwards, and a subsequent `startClient(T)` takes the
creation path: it constructs and registers a fresh handle (allocated at the
current counter, which increments). -/
theorem C3_disconnected_removes_handle (s : ManagerState) (T reason : String)
    (b : Bool) :
    getClient (onDisconnected s T reason) T = none ∧
    (onDisconnected s T reason).events =
      s.events ++ [(T, EventMsg.disconnected reason)] ∧
    (startClient (onDisconnected s T reason) T b).2 =
      { id := s.nextClientId, clientId := T, dataPath := s.authDir } ∧
    mget (startClient (onDisconnected s T reason) T b).1.clients T =
      some { id := s.nextClientId, clientId := T, dataPath := s.authDir } ∧
    (startClient (onDisconnected s T reason) T b).1.nextClientId =
      s.nextClientId + 1 := by
  have hnone : mget (onDisconnected s T reason).clients T = none := by
    simp only [onDisconnected, emitToUser]
    exact mget_mdelete_self s.clients T
  obtain ⟨h1, h2, h3, _⟩ := startClient_of_mget_none _ T b hnone
  refine ⟨hnone, rfl, h3, ?_, h2⟩
  rw [h1]
  exact mget_mset_self _ _ _

/-- C10: when `client.initialize()` rejects inside `startClient(T)` on a
fresh tenant, the handle stays registered (it was stored before the await),
the events to T's room are `INITIALIZING` followed by the
`Failed to initialize` error, the handle returned is the freshly
constructed one (the `catch` swallows the rejection, so the call still
returns it), and a subsequent `startClient(T)` takes the existing-handle
branch: it emits `CONNECTED` and returns the same handle without
constructing or re-running anything. -/
theorem C10_failed_initialization (s : ManagerState) (T : String)
    (h : mget s.clients T = none) :
    mget (startClient s T true).1.clients T = some (startClient s T true).2 ∧
    (startClient s T true).1.events =
      s.events ++ [(T, EventMsg.status "INITIALIZING"),
                   (T, EventMsg.error "Failed to initialize")] ∧
    (startClient s T true).2 =
      { id := s.nextClientId, clientId := T, dataPath := s.authDir } ∧
    (∀ b, startClient (startClient s T true).1 T b =
      ({ (startClient s T true).1 with
           events := (startClient s T true).1.events ++
             [(T, EventMsg.status "CONNECTED")] },
       (startClient s T true).2)) := by
  obtain ⟨h1, h2, h3, _⟩ := startClient_of_mget_none s T true h
  have hm : mget (startClient s T true).1.clients T =
      some (startClient s T true).2 := by
    rw [h1, h3]
    exact mget_mset_self _ _ _
  refine ⟨hm, startClient_events_fail s T h, h3, ?_⟩
  intro b
  exact startClient_of_mget_some _ T b _ hm

theorem C10_failed_initialization_witness :
    mget (startClient (initialState "/a") "u" true).1.clients "u" =
      some (startClient (initialState "/a") "u" true).2 ∧
    startClient (startClient (initialState "/a") "u" true).1 "u" false =
      ({ (startClient (initialState "/a") "u" true).1 with
           events := (startClient (initialState "/a") "u" true).1.events ++
             [("u", EventMsg.status "CONNECTED")] },
       (startClient (initialState "/a") "u" true).2) := by
  have h := C10_failed_initialization (initialState "/a") "u" rfl
  exact ⟨h.1, h.2.2.2 false⟩

/-- Which steps touch the QR cache (only the `qr` and `ready` handlers do). -/
def opTouchesQr : Op → Bool
  | Op.qrEvent _ _ => true
  | Op.readyEvent _ => true
  | _ => false

/-- C4 counterexample: start, receive a QR, then a `disconnected` signal.
The handle is removed from the registry, yet `getQr` still returns the
stale QR — the `disconnected` handler (and `deleteSession` likewise) never
touches `lastQr`, refuting "cleared … when the tenant's connection is
removed". -/
theorem C4_qr_survives_disconnect_counterexample :
    getClient (run [Op.start "u" false, Op.qrEvent "u" "QR1",
        Op.disconnectedEvent "u" "NAVIGATION"] (initialState "/a")) "u" =
      none ∧
    getQr (run [Op.start "u" false, Op.qrEvent "u" "QR1",
        Op.disconnectedEvent "u" "NAVIGATION"] (initialState "/a")) "u" =
      some "QR1" ∧
    (match deleteSession (run [Op.start "u" false, Op.qrEvent "u" "QR1"]
        (initialState "/a")) "u"
        { logoutFails := false, destroyFails := false, pathExists := true,
          removeFails := false } with
     | Except.ok s' => getQr s' "u"
     | Except.error _ => none) = some "QR1" := by
  refine ⟨?_, ?_, ?_⟩ <;> rfl

/-- C4 amended: the Pairing Artifact is set exactly when a `qr` event fires
and cleared exactly when the handle reaches the ready state; every other
step — including the `disconnected` handler and `deleteSession` — leaves it
unchanged. -/
theorem C4_pairing_artifact_lifecycle (s : ManagerState) :
    (∀ u q, (applyOp s (Op.qrEvent u q)).lastQr = mset s.lastQr u q) ∧
    (∀ u, (applyOp s (Op.readyEvent u)).lastQr = mdelete s.lastQr u) ∧
    (∀ op, opTouchesQr op = false → (applyOp s op).lastQr = s.lastQr) := by
  refine ⟨fun u q => rfl, fun u => rfl, ?_⟩
  intro op hop
  cases op with
  | start u b =>
      show (startClient s u b).1.lastQr = s.lastQr
      rcases hc : mget s.clients u with _ | c
      · exact (startClient_of_mget_none s u b hc).2.2.2
      · rw [startClient_of_mget_some s u b c hc]
  | qrEvent u q => simp [opTouchesQr] at hop
  | readyEvent u => simp [opTouchesQr] at hop
  | authFailureEvent u => rfl
  | disconnectedEvent u r => rfl
  | deleteOp u o =>
      obtain ⟨s', h1, _, _, h4, _⟩ := deleteSession_spec s u o
      show (match deleteSession s u o with
        | Except.ok s' => s'
        | Except.error _ => s).lastQr = s.lastQr
      rw [h1]
      exact h4
  | messageEvent u lk pf m => rfl

theorem C4_pairing_artifact_lifecycle_witness :
    (applyOp (initialState "/a") (Op.qrEvent "u" "Q1")).lastQr =
      mset (initialState "/a").lastQr "u" "Q1" ∧
    (applyOp { initialState "/a" with lastQr := [("u", "Q1")] }
        (Op.disconnectedEvent "u" "gone")).lastQr = [("u", "Q1")] := by
  constructor
  · exact (C4_pairing_artifact_lifecycle (initialState "/a")).1 "u" "Q1"
  · exact (C4_pairing_artifact_lifecycle
      { initialState "/a" with lastQr := [("u", "Q1")] }).2.2
      (Op.disconnectedEvent "u" "gone") rfl

/-- C5: with a configured (non-falsy) webhook URL, trigger `incoming` drops
outbound messages, trigger `outgoing` drops inbound messages, and trigger
`both` attempts a delivery for either direction (the decision kernel
produces the URL/payload pair, whatever direction the message has). -/
theorem C5_trigger_filtering (cfg : UserConfig) (m : Message)
    (postFails : Bool) (hurl : jsFalsyStr cfg.webhook_url = false) :
    (jsOr cfg.webhook_trigger "incoming" = "incoming" → m.fromMe = true →
      dispatchWebhook (Except.ok ⟨some cfg, none⟩) postFails m =
        DispatchOutcome.skipped) ∧
    (jsOr cfg.webhook_trigger "incoming" = "outgoing" → m.fromMe = false →
      dispatchWebhook (Except.ok ⟨some cfg, none⟩) postFails m =
        DispatchOutcome.skipped) ∧
    (jsOr cfg.webhook_trigger "incoming" = "both" →
      webhookDecision ⟨some cfg, none⟩ m =
        some (cfg.webhook_url.getD "", mkPayload m)) := by
  refine ⟨?_, ?_, ?_⟩
  · intro ht hm
    simp [dispatchWebhook, webhookDecision, hurl, ht, hm]
  · intro ht hm
    simp [dispatchWebhook, webhookDecision, hurl, ht, hm]
  · intro ht
    simp [webhookDecision, hurl, ht]

theorem C5_trigger_filtering_witness :
    jsFalsyStr (UserConfig.webhook_url ⟨some "http://x", some "incoming"⟩) =
      false ∧
    dispatchWebhook
      (Except.ok ⟨some ⟨some "http://x", some "incoming"⟩, none⟩) false
      { fromMe := true, mfrom := "123@c.us", mto := "me", body := "hi",
        mtype := "chat", timestamp := 1, notifyName := none,
        hasMedia := false, idSerialized := "id1" } =
      DispatchOutcome.skipped ∧
    dispatchWebhook
      (Except.ok ⟨some ⟨some "http://x", some "outgoing"⟩, none⟩) false
      { fromMe := false, mfrom := "123@c.us", mto := "me", body := "hi",
        mtype := "chat", timestamp := 1, notifyName := none,
        hasMedia := false, idSerialized := "id1" } =
      DispatchOutcome.skipped ∧
    webhookDecision ⟨some ⟨some "http://x", some "both"⟩, none⟩
      { fromMe := true, mfrom := "123@c.us", mto := "me", body := "hi",
        mtype := "chat", timestamp := 1, notifyName := none,
        hasMedia := false, idSerialized := "id1" } =
      some ("http://x", mkPayload
        { fromMe := true, mfrom := "123@c.us", mto := "me", body := "hi",
          mtype := "chat", timestamp := 1, notifyName := none,
          hasMedia := false, idSerialized := "id1" }) := by
  refine ⟨rfl, ?_, ?_, ?_⟩
  · exact (C5_trigger_filtering ⟨some "http://x", some "incoming"⟩ _ false
      rfl).1 rfl rfl
  · exact (C5_trigger_filtering ⟨some "http://x", some "outgoing"⟩ _ false
      rfl).2.1 rfl rfl
  · exact (C5_trigger_filtering ⟨some "http://x", some "both"⟩ _ false
      rfl).2.2 rfl

/-- C6: a message event never changes the registry, the QR cache, the
counter or the socket-event log; a rejected lookup and a rejected POST are
both caught into a logged outcome (never re-thrown), and an absent
configuration row or an absent/empty URL yields no delivery attempt and no
error. -/
theorem C6_dispatch_failures_contained (s : ManagerState) (u : String)
    (lk : Except String LookupResult) (postFails : Bool) (m : Message) :
    ((onMessage s u lk postFails m).clients = s.clients ∧
     (onMessage s u lk postFails m).lastQr = s.lastQr ∧
     (onMessage s u lk postFails m).nextClientId = s.nextClientId ∧
     (onMessage s u lk postFails m).events = s.events) ∧
    (∀ e, lk = Except.error e →
      dispatchWebhook lk postFails m = DispatchOutcome.errorLogged e) ∧
    (∀ r, lk = Except.ok r → r.data = none →
      dispatchWebhook lk postFails m = DispatchOutcome.skipped) ∧
    (∀ r cfg, lk = Except.ok r → r.error = none → r.data = some cfg →
      jsFalsyStr cfg.webhook_url = true →
      dispatchWebhook lk postFails m = DispatchOutcome.skipped) ∧
    (∀ r d p, lk = Except.ok r → webhookDecision r m = some (d, p) →
      postFails = true →
      dispatchWebhook lk postFails m = DispatchOutcome.errorLogged "error") := by
  refine ⟨⟨rfl, rfl, rfl, rfl⟩, ?_, ?_, ?_, ?_⟩
  · intro e he
    subst he
    rfl
  · intro r hr hd
    subst hr
    cases hre : r.error with
    | some e => simp [dispatchWebhook, webhookDecision, hre]
    | none => simp [dispatchWebhook, webhookDecision, hre, hd]
  · intro r cfg hr hre hd hurl
    subst hr
    simp [dispatchWebhook, webhookDecision, hre, hd, hurl]
  · intro r d p hr hdec hpf
    subst hr
    subst hpf
    simp [dispatchWebhook, hdec, attemptStep]

theorem C6_dispatch_failures_contained_witness :
    dispatchWebhook (Except.ok ⟨none, some "No rows found"⟩) false
      { fromMe := false, mfrom := "123@c.us", mto := "me", body := "hi",
        mtype := "chat", timestamp := 1, notifyName := none,
        hasMedia := false, idSerialized := "id1" } =
      DispatchOutcome.skipped ∧
    dispatchWebhook (Except.error "network down") false
      { fromMe := false, mfrom := "123@c.us", mto := "me", body := "hi",
        mtype := "chat", timestamp := 1, notifyName := none,
        hasMedia := false, idSerialized := "id1" } =
      DispatchOutcome.errorLogged "network down" ∧
    (onMessage (initialState "/a") "u1" (Except.error "network down") false
      { fromMe := false, mfrom := "123@c.us", mto := "me", body := "hi",
        mtype := "chat", timestamp := 1, notifyName := none,
        hasMedia := false, idSerialized := "id1" }).clients =
      (initialState "/a").clients := by
  refine ⟨?_, ?_, ?_⟩
  · exact (C6_dispatch_failures_contained (initialState "/a") "u1" _ false
      _).2.2.1 ⟨none, some "No rows found"⟩ rfl rfl
  · exact (C6_dispatch_failures_contained (initialState "/a") "u1" _ false
      _).2.1 "network down" rfl
  · exact (C6_dispatch_failures_contained (initialState "/a") "u1"
      (Except.error "network down") false _).1.1

/-- C7: `deleteSession(T)` always returns `ok` (the `logout`, `destroy` and
`fs.remove` steps are each independently guarded, for every combination of
their failures), T is absent from the registry afterwards, the QR cache and
counter are untouched by the teardown, and the `disconnected { reason:
'logout' }` event is emitted. -/
theorem C7_deleteSession_best_effort (s : ManagerState) (T : String)
    (o : TeardownOracle) :
    ∃ s', deleteSession s T o = Except.ok s' ∧
      mget s'.clients T = none ∧
      s'.lastQr = s.lastQr ∧
      s'.nextClientId = s.nextClientId ∧
      s'.events = s.events ++ [(T, EventMsg.disconnected "logout")] := by
  obtain ⟨s', h1, h2, _, h4, h5, h6, _⟩ := deleteSession_spec s T o
  exact ⟨s', h1, h2, h4, h5, h6⟩

theorem restoreItem_mono (s : ManagerState) (item : String)
    (f : String → Bool) (k : String) (h : mhas s.clients k = true) :
    mhas (restoreItem s item f).clients k = true := by
  unfold restoreItem
  split
  · exact mhas_startClient_mono s _ _ k h
  · exact h

theorem foldl_restore_mono (items : List String) (s : ManagerState)
    (f : String → Bool) (k : String) (h : mhas s.clients k = true) :
    mhas (items.foldl (fun st it => restoreItem st it f) s).clients k =
      true := by
  induction items generalizing s with
  | nil => exact h
  | cons a rest ih =>
      simp only [List.foldl_cons]
      exact ih _ (restoreItem_mono s a f k h)

theorem initSweep_restores (items : List String) (f : String → Bool)
    (item : String) (hpre : strStartsWith item "session-" = true) :
    ∀ s : ManagerState, item ∈ items →
      mhas (items.foldl (fun st it => restoreItem st it f) s).clients
        (extractUserId item) = true := by
  induction items with
  | nil =>
      intro s hmem
      cases hmem
  | cons a rest ih =>
      intro s hmem
      simp only [List.foldl_cons]
      rcases List.mem_cons.mp hmem with h | h
      · subst h
        apply foldl_restore_mono
        unfold restoreItem
        rw [if_pos hpre]
        exact mhas_startClient_self _ _ _
      · exact ih _ h

/-- C8: for every directory listing and every per-tenant failure assignment,
every entry matching the `session-` prefix leads to a registered handle for
the extracted tenant id after the sweep (so `startClient` was invoked for
it), regardless of what the other tenants' — or its own — `initialize`
does; and each matching entry is processed by exactly the ordinary
`startClient` path. -/
theorem C8_recovery_sweep (s : ManagerState) (items : List String)
    (f : String → Bool) (item : String) (hmem : item ∈ items)
    (hpre : strStartsWith item "session-" = true) :
    mhas (initSweep s (Except.ok items) f).clients (extractUserId item) =
      true ∧
    restoreItem s item f =
      (startClient s (extractUserId item) (f (extractUserId item))).1 := by
  refine ⟨initSweep_restores items f item hpre s hmem, ?_⟩
  unfold restoreItem
  rw [if_pos hpre]

theorem C8_recovery_sweep_witness :
    mhas (initSweep (initialState "/a")
        (Except.ok ["session-u1", "session-u2", "junk"])
        (fun u => u == "u1")).clients (extractUserId "session-u2") = true ∧
    mhas (initSweep (initialState "/a")
        (Except.ok ["session-u1", "session-u2", "junk"])
        (fun u => u == "u1")).clients (extractUserId "session-u1") = true := by
  constructor
  · exact (C8_recovery_sweep (initialState "/a")
      ["session-u1", "session-u2", "junk"] (fun u => u == "u1")
      "session-u2" (by decide) (by decide)).1
  · exact (C8_recovery_sweep (initialState "/a")
      ["session-u1", "session-u2", "junk"] (fun u => u == "u1")
      "session-u1" (by decide) (by decide)).1

/-- C9: an absent, null or empty stored `webhook_trigger` makes the
dispatcher behave exactly as trigger `incoming` (same decision for every
message; with a configured URL, outbound is dropped and inbound is
delivered), the save handler writes `incoming` when the request body
carries no trigger, and the migration's column default is `incoming`. -/
theorem C9_default_trigger_incoming (url trig : Option String) (m : Message)
    (htrig : trig = none ∨ trig = some "") :
    webhookDecision ⟨some ⟨url, trig⟩, none⟩ m =
      webhookDecision ⟨some ⟨url, some "incoming"⟩, none⟩ m ∧
    (jsFalsyStr url = false → m.fromMe = true →
      webhookDecision ⟨some ⟨url, trig⟩, none⟩ m = none) ∧
    (jsFalsyStr url = false → m.fromMe = false →
      webhookDecision ⟨some ⟨url, trig⟩, none⟩ m =
        some (url.getD "", mkPayload m)) ∧
    savedWebhookTrigger trig = "incoming" ∧
    webhookTriggerColumnDefault = "incoming" := by
  have hj : jsOr trig "incoming" = "incoming" := by
    rcases htrig with h | h <;> subst h <;> rfl
  have hi : jsOr (some "incoming") "incoming" = "incoming" := rfl
  refine ⟨?_, ?_, ?_, hj, rfl⟩
  · cases hm : m.fromMe <;> simp [webhookDecision, hj, hi, hm]
  · intro hurl hm
    simp [webhookDecision, hj, hurl, hm]
  · intro hurl hm
    simp [webhookDecision, hj, hurl, hm]

theorem C9_default_trigger_incoming_witness :
    webhookDecision ⟨some ⟨some "http://x", none⟩, none⟩
      { fromMe := true, mfrom := "123@c.us", mto := "me", body := "hi",
        mtype := "chat", timestamp := 1, notifyName := none,
        hasMedia := false, idSerialized := "id1" } = none ∧
    webhookDecision ⟨some ⟨some "http://x", some ""⟩, none⟩
      { fromMe := false, mfrom := "123@c.us", mto := "me", body := "hi",
        mtype := "chat", timestamp := 1, notifyName := none,
        hasMedia := false, idSerialized := "id1" } =
      some ("http://x", mkPayload
        { fromMe := false, mfrom := "123@c.us", mto := "me", body := "hi",
          mtype := "chat", timestamp := 1, notifyName := none,
          hasMedia := false, idSerialized := "id1" }) ∧
    savedWebhookTrigger none = "incoming" := by
  refine ⟨?_, ?_, ?_⟩
  · exact (C9_default_trigger_incoming (some "http://x") none _
      (Or.inl rfl)).2.1 rfl rfl
  · exact (C9_default_trigger_incoming (some "http://x") (some "") _
      (Or.inr rfl)).2.2.1 rfl rfl
  · exact (C9_default_trigger_incoming (some "http://x") none
      { fromMe := true, mfrom := "123@c.us", mto := "me", body := "hi",
        mtype := "chat", timestamp := 1, notifyName := none,
        hasMedia := false, idSerialized := "id1" }
      (Or.inl rfl)).2.2.2.1
